import Mathlib

/-!
Verification of the flight-booking seat store and order orchestrator
(`internal/database/queries.go`, `internal/temporal/activities`,
`internal/temporal/workflows/booking.go`, `internal/api/handlers.go`)
against its natural-language specification.

The Go code is shallowly embedded: the seat/order tables become lists of
records, transactional mutations become pure functions from table state to
`Except`-wrapped table state (an `Except.error` result models
`tx.Rollback`, an `Except.ok` result models `tx.Commit`), wall-clock
timestamps become integer nanoseconds, and Go error values become an
inductive type that keeps sentinel identity so that `errors.Is` can be
modelled faithfully.
-/

namespace FlightEx

/-! ## Go error values

Go compares errors by identity: `errors.Is(err, target)` unwraps the `%w`
chain of `err` and tests each link for equality with `target`.  The
sentinels declared in `internal/database/db.go` (`ErrSeatNotAvailable`,
`ErrSeatNotExist`, `ErrOrderNotFound`) are distinct values, and an error
built by `errors.New(msg)` at some other call site is never equal to any
of them, even when the message text coincides.  The constructor `errNew`
models such a fresh `errors.New` value; `wrapf` models
`fmt.Errorf("...: %w", err)`; `nonRetryableApp` models
`temporal.NewNonRetryableApplicationError(msg, errType, err)`.
The code never compares two `errNew` values with `errors.Is`, so giving
`errNew` structural equality on the message is harmless here. -/
inductive GoErr where
  | seatNotAvailable : GoErr
  | seatNotExist : GoErr
  | orderNotFound : GoErr
  | errNew (msg : String) : GoErr
  | wrapf (msg : String) (inner : GoErr) : GoErr
  | nonRetryableApp (msg : String) (errType : String) (inner : GoErr) : GoErr
  deriving DecidableEq, Repr

/-- Model of Go `errors.Is(e, target)` for the sentinel targets used by the
repository: compare the error itself with the target, then unwrap the `%w`
chain and repeat. -/
def errorsIs (e target : GoErr) : Bool :=
  e == target ||
    match e with
    | .wrapf _ inner => errorsIs inner target
    | .nonRetryableApp _ _ inner => errorsIs inner target
    | _ => false

/-- The Temporal activity retry machinery treats an error as non-retryable
exactly when it is an application error built with
`temporal.NewNonRetryableApplicationError` (no retry policy in this
repository lists `NonRetryableErrorTypes`). -/
def isNonRetryable : GoErr → Bool
  | .nonRetryableApp _ _ _ => true
  | _ => false

/-- Modelled from the spec: the workflow runtime's bounded-retry activity
execution (§4.3 assumes "bounded-retry activity execution with exponential
backoff"; the Temporal SDK itself is outside `src/`).  For an activity
whose failure is deterministic, the runtime stops after the first attempt
when the returned error is non-retryable and otherwise retries up to the
policy's maximum attempt count. -/
def attemptsForDeterministicFailure (maxAttempts : Nat) (e : GoErr) : Nat :=
  if isNonRetryable e then 1 else maxAttempts

/-! ## Data model (`internal/models/models.go`, `scripts/init.sql`) -/

/-- Order status constant from `models.go`. -/
def StatusCreated : String := "CREATED"
/-- Order status constant from `models.go`. -/
def StatusSeatsReserved : String := "SEATS_RESERVED"
/-- Order status constant from `models.go`. -/
def StatusPaymentPending : String := "PAYMENT_PENDING"
/-- Order status constant from `models.go`. -/
def StatusConfirmed : String := "CONFIRMED"
/-- Order status constant from `models.go`. -/
def StatusFailed : String := "FAILED"
/-- Order status constant from `models.go`. -/
def StatusExpired : String := "EXPIRED"
/-- Order status constant from `models.go`. -/
def StatusCancelled : String := "CANCELLED"

/-- Seat status constant from `models.go`. -/
def SeatAvailable : String := "AVAILABLE"
/-- Seat status constant from `models.go`. -/
def SeatReserved : String := "RESERVED"
/-- Seat status constant from `models.go`. -/
def SeatBooked : String := "BOOKED"

/-- A row of the `seats` table.  `reservedAt` is a wall-clock timestamp in
nanoseconds; `none` models SQL `NULL` (`sql.NullTime` with `Valid=false`). -/
structure Seat where
  seatId : String
  flightId : String
  seatNumber : String
  status : String
  reservedBy : Option String
  userId : Option String
  reservedAt : Option Int
  deriving DecidableEq, Repr

/-- A row of the `orders` table (the columns the embedded queries read). -/
structure OrderRow where
  orderId : String
  flightId : String
  userId : String
  status : String
  deriving DecidableEq, Repr

/-- The relational store state used by the embedded queries. -/
structure DBState where
  seats : List Seat
  orders : List OrderRow
  deriving DecidableEq, Repr

/-- The hard-coded staleness cutoff `15 * time.Minute` used by
`ReserveSeats` and `UpdateSeats` in `queries.go`, in nanoseconds. -/
def fifteenMinutes : Int := 900 * 1000000000

/-! ## Seat store (`internal/database/queries.go`) -/

/-- The per-row availability check inside the locking scan of
`ReserveSeats` (lines 56-66) and `UpdateSeats` (lines 183-189): the row is
takeable when `status == AVAILABLE`, or `status == RESERVED` and
`reservedAt` is non-NULL and `time.Since(reservedAt) > 15*time.Minute`;
any other row makes the scan return an error. -/
def seatTakeable (now : Int) (r : Seat) : Bool :=
  if r.status = SeatAvailable then true
  else if r.status = SeatReserved then
    match r.reservedAt with
    | some t => now - t > fifteenMinutes
    | none => false
  else false

/-- The rows selected `FOR UPDATE` by the locking query
`WHERE flight_id = ? AND seat_number IN (...)`, in table order. -/
def lockedRows (flightId : String) (seatNums : List String) (table : List Seat) : List Seat :=
  table.filter (fun r => r.flightId = flightId ∧ r.seatNumber ∈ seatNums)

/-- The per-row effect of the reserve `UPDATE`: `status = RESERVED,
reserved_by = orderId, user_id = userId, reserved_at = NOW()`. -/
def stampRow (now : Int) (orderId userId : String) (r : Seat) : Seat :=
  { r with status := SeatReserved, reservedBy := some orderId,
           userId := some userId, reservedAt := some now }

/-- The `UPDATE seats SET status = RESERVED, reserved_by = ?, user_id = ?,
reserved_at = NOW() WHERE flight_id = ? AND seat_number IN (...)` statement. -/
def stampReserved (now : Int) (flightId : String) (seatNums : List String)
    (orderId userId : String) (table : List Seat) : List Seat :=
  table.map (fun r =>
    if r.flightId = flightId ∧ r.seatNumber ∈ seatNums then stampRow now orderId userId r
    else r)

/-- `DB.ReserveSeats(flightID, seats, orderID, userID)` from `queries.go`
lines 14-93, as one transaction: lock the matching rows; scan them and
return `seat <n>: ErrSeatNotAvailable` at the first non-takeable row;
then check that every requested seat number was among the locked rows and
return `seat <n>: ErrSeatNotExist` at the first missing one; otherwise
stamp all locked rows as reserved by the order and commit. -/
def reserveSeatsTx (now : Int) (flightId : String) (seatNums : List String)
    (orderId userId : String) (table : List Seat) : Except GoErr (List Seat) :=
  match (lockedRows flightId seatNums table).find? (fun r => ¬ seatTakeable now r) with
  | some r => .error (.wrapf ("seat " ++ r.seatNumber) .seatNotAvailable)
  | none =>
    match seatNums.find? (fun s =>
        s ∉ (lockedRows flightId seatNums table).map (fun r => r.seatNumber)) with
    | some s => .error (.wrapf ("seat " ++ s) .seatNotExist)
    | none => .ok (stampReserved now flightId seatNums orderId userId table)

/-- Clearing the hold fields of one row, as the release `UPDATE` in
`ReleaseSeats` / `UpdateSeats` / `ResetFlightSeats` does. -/
def clearHold (r : Seat) : Seat :=
  { r with status := SeatAvailable, reservedBy := none,
           userId := none, reservedAt := none }

/-- `DB.ReleaseSeats(orderID)` from `queries.go` lines 96-109: set every
row with `reserved_by = orderID` back to `AVAILABLE` with cleared fields. -/
def releaseSeatsRun (orderId : String) (table : List Seat) : List Seat :=
  table.map (fun r => if r.reservedBy = some orderId then clearHold r else r)

/-- The per-row effect of the release `UPDATE` of `UpdateSeats` (lines
131-145): clear the hold of a row owned by the order whose seat number is
among `oldSeats`, leave every other row alone. -/
def releaseOldRow (orderId : String) (oldSeats : List String) (r : Seat) : Seat :=
  if r.reservedBy = some orderId ∧ r.seatNumber ∈ oldSeats then clearHold r else r

/-- The release step of `UpdateSeats`: skipped entirely when `oldSeats` is
empty (lines 127-146), else the release `UPDATE` applied to the table. -/
def releasedTable (orderId : String) (oldSeats : List String) (table : List Seat) : List Seat :=
  if oldSeats.isEmpty then table else table.map (releaseOldRow orderId oldSeats)

/-- The acquire step of `UpdateSeats` (lines 149-216): skipped when
`newSeats` is empty; else lock the rows of the flight matching `newSeats`,
fail with a plain `errors`-package error at the first non-takeable row,
then at the first requested seat with no locked row, else stamp the locked
rows as reserved by the order. -/
def acquireSeats (now : Int) (flightId : String) (newSeats : List String)
    (orderId userId : String) (table : List Seat) : Except GoErr (List Seat) :=
  if newSeats.isEmpty then .ok table
  else
    match (lockedRows flightId newSeats table).find? (fun r => ¬ seatTakeable now r) with
    | some r => .error (.errNew ("seat " ++ r.seatNumber ++ " is not available"))
    | none =>
      match newSeats.find? (fun s =>
          s ∉ (lockedRows flightId newSeats table).map (fun r => r.seatNumber)) with
      | some s => .error (.errNew ("seat " ++ s ++ " does not exist"))
      | none => .ok (stampReserved now flightId newSeats orderId userId table)

/-- `DB.UpdateSeats(orderID, oldSeats, newSeats)` from `queries.go` lines
112-219, as one transaction: look up `(flight_id, user_id)` from the order
row (`sql.ErrNoRows` surfaces as a wrapped generic error); release the
rows with `reserved_by = orderID AND seat_number IN (oldSeats)`; acquire
the `newSeats` with the lock-check-reserve sequence; commit.  An error
result models `tx.Rollback`: no mutation of the transaction is published. -/
def updateSeatsTx (now : Int) (orderId : String) (oldSeats newSeats : List String)
    (db : DBState) : Except GoErr (List Seat) :=
  match db.orders.find? (fun o => o.orderId = orderId) with
  | none => .error (.wrapf "failed to get order info" (.errNew "sql: no rows in result set"))
  | some o =>
    acquireSeats now o.flightId newSeats orderId o.userId
      (releasedTable orderId oldSeats db.seats)

/-- The observable seat table after a transactional call: `tx.Commit`
publishes the transaction's table, any error path reaches the deferred
`tx.Rollback` and leaves the stored table untouched. -/
def commitOrRollback (res : Except GoErr (List Seat)) (table : List Seat) : List Seat :=
  match res with
  | .ok t => t
  | .error _ => table

/-- `DB.GetOrderSeats(orderID)` from `queries.go` lines 344-368: the seat
numbers of the rows with `reserved_by = orderID` (order by seat number is
irrelevant for the membership statements proved here). -/
def ownedSeats (table : List Seat) (orderId : String) : List String :=
  (table.filter (fun r => r.reservedBy = some orderId)).map (fun r => r.seatNumber)

/-! ## Order store (`internal/database/queries.go` lines 319-341) -/

/-- `DB.UpdateOrderStatus(orderID, status)`: `UPDATE orders SET status = ?
WHERE order_id = ?`; when `RowsAffected` is zero the function returns a
fresh `errors.New("order not found")` value — note, not the
`database.ErrOrderNotFound` sentinel declared in `db.go`. -/
def dbUpdateOrderStatus (orderId status : String) (orders : List OrderRow) :
    Except GoErr (List OrderRow) :=
  if orders.any (fun o => o.orderId = orderId) then
    .ok (orders.map (fun o => if o.orderId = orderId then { o with status := status } else o))
  else
    .error (.errNew "order not found")

/-! ## Activity layer (`internal/temporal/activities`) -/

/-- `SeatActivities.ReserveSeats` (activities/seats.go lines 19-25): call
the store and wrap any error with `fmt.Errorf("failed to reserve seats:
%w", err)`.  No path marks the error non-retryable. -/
def activityReserveSeats (now : Int) (flightId : String) (seatNums : List String)
    (orderId userId : String) (table : List Seat) : Except GoErr (List Seat) :=
  match reserveSeatsTx now flightId seatNums orderId userId table with
  | .error e => .error (.wrapf "failed to reserve seats" e)
  | .ok t => .ok t

/-- `SeatActivities.UpdateSeats` (activities/seats.go lines 37-43): call
the store and wrap any error with `fmt.Errorf("failed to update seats:
%w", err)`. -/
def activityUpdateSeats (now : Int) (orderId : String) (oldSeats newSeats : List String)
    (db : DBState) : Except GoErr (List Seat) :=
  match updateSeatsTx now orderId oldSeats newSeats db with
  | .error e => .error (.wrapf "failed to update seats" e)
  | .ok t => .ok t

/-- `OrderActivities.UpdateOrderStatus` (activities/orders.go lines 22-36):
call the store; when `errors.Is(err, database.ErrOrderNotFound)` holds,
return `temporal.NewNonRetryableApplicationError(err.Error(),
"OrderNotFound", err)`; otherwise wrap with `fmt.Errorf("failed to update
order status: %w", err)`. -/
def activityUpdateOrderStatus (orderId status : String) (orders : List OrderRow) :
    Except GoErr (List OrderRow) :=
  match dbUpdateOrderStatus orderId status orders with
  | .ok os => .ok os
  | .error e =>
    if errorsIs e .orderNotFound then
      .error (.nonRetryableApp "order not found" "OrderNotFound" e)
    else
      .error (.wrapf "failed to update order status" e)

/-! ## Booking workflow (`internal/temporal/workflows/booking.go`)

The orchestrator is deterministic between suspension points; the outcomes
of its external interactions (activity results, the child payment flow,
timer cancellation) are carried inside the events of the event trace, so
one run of the embedded loop corresponds to one durable execution with
those observed outcomes. -/

/-- The in-memory `models.BookingState` fields the loop reads and writes,
plus the `workflowErr` local of `BookingWorkflow`. -/
structure LoopState where
  orderId : String
  seats : List String
  status : String
  reservationStartAt : Int
  workflowErr : Option GoErr
  deriving DecidableEq, Repr

/-- One serviced source of the workflow selector, together with the
outcomes of the external calls its handler makes:
`updateSeats` carries the seat-update activity result (`none` = success)
and the logical time of the turn; `submitPayment` carries whether the
child payment flow reported success (`err == nil && paymentResult.Success`)
and the release-activity outcome used on the failure branch;
`cancelOrder` and `timerFired` carry their release outcome; `timerFired`
also records whether the timer future resolved as cancelled. -/
inductive LoopEvent where
  | updateSeats (newSeats : List String) (now : Int) (activityErr : Option GoErr) : LoopEvent
  | submitPayment (code : String) (childSuccess : Bool) (releaseErr : Option GoErr) : LoopEvent
  | cancelOrder (releaseErr : Option GoErr) : LoopEvent
  | timerFired (wasCancelled : Bool) (releaseErr : Option GoErr) : LoopEvent
  deriving DecidableEq, Repr

/-- The selector handlers of `BookingWorkflow` (booking.go lines 100-235),
one event per loop turn. -/
def handleEvent (s : LoopState) (e : LoopEvent) : LoopState :=
  match e with
  | .updateSeats newSeats now activityErr =>
    match activityErr with
    | some _ => s
    | none => { s with seats := newSeats, reservationStartAt := now }
  | .submitPayment _ childSuccess releaseErr =>
    let s1 := { s with status := StatusPaymentPending }
    if childSuccess then
      { s1 with status := StatusConfirmed }
    else
      let s2 := { s1 with status := StatusFailed }
      match releaseErr with
      | some err => { s2 with workflowErr := some (.wrapf "failed to release seats" err) }
      | none => s2
  | .cancelOrder releaseErr =>
    let s1 := { s with status := StatusCancelled }
    match releaseErr with
    | some err => { s1 with workflowErr := some (.wrapf "failed to release seats" err) }
    | none => s1
  | .timerFired wasCancelled releaseErr =>
    if wasCancelled then s
    else
      let s1 := { s with status := StatusExpired }
      match releaseErr with
      | some err => { s1 with workflowErr := some (.wrapf "failed to release seats" err) }
      | none => s1

/-- The exit condition of the main loop (booking.go lines 240-246): break
when the status is one of the four terminal values or `workflowErr` is
set. -/
def isTerminalStatus (st : String) : Bool :=
  st = StatusConfirmed || st = StatusFailed || st = StatusExpired || st = StatusCancelled

/-- The main event loop (booking.go lines 96-247) over a trace of serviced
events: service one event, then break when the exit condition holds;
events left in the trace after the break model signals that are delivered
but never serviced. -/
def runLoop (s : LoopState) : List LoopEvent → LoopState
  | [] => s
  | e :: es =>
    if isTerminalStatus (handleEvent s e).status || (handleEvent s e).workflowErr.isSome
    then handleEvent s e
    else runLoop (handleEvent s e) es

/-- The startup sequence of `BookingWorkflow` (booking.go lines 69-81)
reduced to its status effect: a terminally failed initial `reserveSeats`
activity sets `status = FAILED` and returns; success sets
`status = SEATS_RESERVED` and enters the event loop. -/
def startupStatus (reserveResult : Except GoErr (List Seat)) : String :=
  match reserveResult with
  | .error _ => StatusFailed
  | .ok _ => StatusSeatsReserved

/-! ## HTTP façade (`internal/api/handlers.go`) -/

/-- The snapshot returned by the `getStatus` query handler (booking.go
lines 54-59): the raw `models.BookingState`, with `reservationStartAt` as
set at the most recent hold (re)start; no time-remaining is computed in
the workflow. -/
structure BookingSnapshot where
  orderId : String
  flightId : String
  userId : String
  seats : List String
  status : String
  reservationStartAt : Int
  deriving DecidableEq, Repr

/-- The response body of `GET /api/orders/:orderId` (the fields the claims
are about). -/
structure OrderStatusResponse where
  status : String
  timeRemaining : Nat
  deriving DecidableEq, Repr

/-- `Handler.GetOrderStatus` (handlers.go lines 107-162).  `order?` is the
result of the `GetOrder` lookup (`none` = no row, 404); `query?` is the
result of `QueryWorkflow` (`none` = the orchestrator is not running, so
the handler falls back to the order row with `TimeRemaining: 0`).  In the
running case the handler computes `remaining = cfg.ReservationTimeout -
time.Since(state.ReservationStartAt)`, clamps negatives to zero, and
truncates to whole seconds (`int64(remaining.Seconds())`). -/
def getOrderStatusHandler (cfgReservationTimeout now : Int)
    (order? : Option OrderRow) (query? : Option BookingSnapshot) :
    Option OrderStatusResponse :=
  match order? with
  | none => none
  | some order =>
    match query? with
    | none => some { status := order.status, timeRemaining := 0 }
    | some st =>
      some { status := st.status,
             timeRemaining :=
               (if cfgReservationTimeout - (now - st.reservationStartAt) < 0 then 0
                else cfgReservationTimeout - (now - st.reservationStartAt)).toNat
                 / 1000000000 }

/-- The decoded body of `POST /api/orders/:orderId/payment`. -/
structure SubmitPaymentRequest where
  paymentCode : String
  deriving DecidableEq, Repr

/-- The outcome of `Handler.SubmitPayment` observable to the claims: the
HTTP status code and whether `SignalWorkflow` was reached. -/
structure SubmitPaymentOutcome where
  httpStatus : Nat
  signalSent : Bool
  deriving DecidableEq, Repr

/-- `Handler.SubmitPayment` (handlers.go lines 201-234) for a request whose
body decoded successfully: respond 400 when `len(req.PaymentCode) != 5`
(before the order lookup); else 404 when the order row is missing; else
send the `submitPayment` signal and respond 500 on signal failure or 200
on success.  Go's `len` counts bytes; `String.utf8ByteSize` matches it. -/
def submitPaymentHandler (req : SubmitPaymentRequest) (order? : Option OrderRow)
    (signalOk : Bool) : SubmitPaymentOutcome :=
  if req.paymentCode.utf8ByteSize ≠ 5 then
    { httpStatus := 400, signalSent := false }
  else
    match order? with
    | none => { httpStatus := 404, signalSent := false }
    | some _ =>
      if signalOk then { httpStatus := 200, signalSent := true }
      else { httpStatus := 500, signalSent := true }

/-- Modelled from the spec: §4.1 step 4 states the seat is takeable iff
`status = AVAILABLE`, or `status = RESERVED ∧ reservedAt` is older than
the hold window sourced from the `ReservationTimeout` configuration (the
store itself hard-codes `15*time.Minute` instead, which is what this
definition is compared against). -/
def seatTakeableSpec (cfgReservationTimeout now : Int) (r : Seat) : Bool :=
  if r.status = SeatAvailable then true
  else if r.status = SeatReserved then
    match r.reservedAt with
    | some t => now - t > cfgReservationTimeout
    | none => false
  else false

/-! ## Sample states used by concrete witnesses and counterexamples -/

/-- A flight with two seats held by order `O1` and one available seat. -/
def dbTwoHeld : DBState :=
  { seats := [
      ⟨"s1", "FL123", "A1", SeatReserved, some "O1", some "alice", some 0⟩,
      ⟨"s2", "FL123", "A2", SeatReserved, some "O1", some "alice", some 0⟩,
      ⟨"s3", "FL123", "B1", SeatAvailable, none, none, none⟩ ],
    orders := [⟨"O1", "FL123", "alice", StatusSeatsReserved⟩] }

/-- A flight with one seat held by order `O1` and one available seat. -/
def dbOneHeld : DBState :=
  { seats := [
      ⟨"s1", "FL123", "A1", SeatReserved, some "O1", some "alice", some 0⟩,
      ⟨"s3", "FL123", "B1", SeatAvailable, none, none, none⟩ ],
    orders := [⟨"O1", "FL123", "alice", StatusSeatsReserved⟩] }

/-- A seat row whose hold by `O1` started at time 0. -/
def rowHeldAtZero : Seat :=
  ⟨"s1", "FL123", "C5", SeatReserved, some "O1", some "alice", some 0⟩

/-- A seat row that is `RESERVED` by `O1` with a NULL `reservedAt`. -/
def rowNullReservedAt : Seat :=
  ⟨"s1", "FL123", "D1", SeatReserved, some "O1", some "alice", none⟩

/-- A store whose only seat row is `RESERVED` with NULL `reservedAt`, with
a second order `O2` present. -/
def dbNullReservedAt : DBState :=
  { seats := [rowNullReservedAt],
    orders := [⟨"O1", "FL123", "alice", StatusSeatsReserved⟩,
               ⟨"O2", "FL123", "bob", StatusCreated⟩] }

/-! ## Helper lemmas -/

theorem mem_ownedSeats {table : List Seat} {orderId s : String} :
    s ∈ ownedSeats table orderId ↔
      ∃ r ∈ table, r.reservedBy = some orderId ∧ r.seatNumber = s := by
  simp only [ownedSeats, List.mem_map, List.mem_filter, decide_eq_true_eq]
  constructor
  · rintro ⟨r, ⟨hr, hres⟩, hnum⟩
    exact ⟨r, hr, hres, hnum⟩
  · rintro ⟨r, hr, hres, hnum⟩
    exact ⟨r, ⟨hr, hres⟩, hnum⟩

theorem owned_releasedTable {orderId : String} {oldSeats : List String}
    {table : List Seat} {s : String} :
    s ∈ ownedSeats (releasedTable orderId oldSeats table) orderId ↔
      s ∈ ownedSeats table orderId ∧ s ∉ oldSeats := by
  unfold releasedTable
  by_cases hemp : oldSeats.isEmpty
  · have : oldSeats = [] := List.isEmpty_iff.mp hemp
    subst this
    simp
  · simp only [hemp, if_false]
    rw [mem_ownedSeats, mem_ownedSeats]
    constructor
    · rintro ⟨r', hr', hres, hnum⟩
      rcases List.mem_map.mp hr' with ⟨r, hr, himg⟩
      unfold releaseOldRow at himg
      by_cases hcond : r.reservedBy = some orderId ∧ r.seatNumber ∈ oldSeats
      · rw [if_pos hcond] at himg
        rw [← himg] at hres
        simp [clearHold] at hres
      · rw [if_neg hcond] at himg
        subst himg
        refine ⟨⟨r, hr, hres, hnum⟩, ?_⟩
        intro hmem
        exact hcond ⟨hres, hnum ▸ hmem⟩
    · rintro ⟨⟨r, hr, hres, hnum⟩, hnot⟩
      refine ⟨releaseOldRow orderId oldSeats r, List.mem_map.mpr ⟨r, hr, rfl⟩, ?_⟩
      unfold releaseOldRow
      rw [if_neg (by rintro ⟨-, hmem⟩; exact hnot (hnum ▸ hmem))]
      exact ⟨hres, hnum⟩

theorem updateSeatsTx_eq_acquireSeats {now : Int} {orderId : String}
    {oldSeats newSeats : List String} {db : DBState} {o : OrderRow}
    (hord : db.orders.find? (fun o => o.orderId = orderId) = some o) :
    updateSeatsTx now orderId oldSeats newSeats db =
      acquireSeats now o.flightId newSeats orderId o.userId
        (releasedTable orderId oldSeats db.seats) := by
  unfold updateSeatsTx
  rw [hord]

theorem mem_lockedRows {flightId : String} {seatNums : List String}
    {table : List Seat} {r : Seat} :
    r ∈ lockedRows flightId seatNums table ↔
      r ∈ table ∧ r.flightId = flightId ∧ r.seatNumber ∈ seatNums := by
  simp [lockedRows, List.mem_filter]

theorem owned_acquireSeats_ok {now : Int} {flightId : String} {newSeats : List String}
    {orderId userId : String} {table t : List Seat} {s : String}
    (h : acquireSeats now flightId newSeats orderId userId table = .ok t) :
    s ∈ ownedSeats t orderId ↔ s ∈ newSeats ∨ s ∈ ownedSeats table orderId := by
  unfold acquireSeats at h
  by_cases hemp : newSeats.isEmpty
  · have : newSeats = [] := List.isEmpty_iff.mp hemp
    subst this
    simp only [List.isEmpty_nil, if_true, Except.ok.injEq] at h
    subst h
    simp
  · rw [if_neg hemp] at h
    set locked := lockedRows flightId newSeats table with hlocked
    cases hfind : locked.find? (fun r => ¬ seatTakeable now r) with
    | some r => rw [hfind] at h; exact absurd h (by simp)
    | none =>
      rw [hfind] at h
      cases hmiss : newSeats.find? (fun s => s ∉ locked.map (fun r => r.seatNumber)) with
      | some s0 => rw [hmiss] at h; exact absurd h (by simp)
      | none =>
        rw [hmiss] at h
        simp only [Except.ok.injEq] at h
        subst h
        have hfound : ∀ s0 ∈ newSeats, s0 ∈ locked.map (fun r => r.seatNumber) := by
          intro s0 hs0
          have := List.find?_eq_none.mp hmiss s0 hs0
          simpa using this
        rw [mem_ownedSeats, mem_ownedSeats]
        unfold stampReserved
        constructor
        · rintro ⟨r', hr', hres, hnum⟩
          rcases List.mem_map.mp hr' with ⟨r, hr, himg⟩
          by_cases hcond : r.flightId = flightId ∧ r.seatNumber ∈ newSeats
          · left
            rw [if_pos hcond] at himg
            rw [← himg] at hnum
            exact hnum ▸ hcond.2
          · right
            rw [if_neg hcond] at himg
            subst himg
            exact ⟨r, hr, hres, hnum⟩
        · rintro (hs | ⟨r, hr, hres, hnum⟩)
          · rcases List.mem_map.mp (hfound s hs) with ⟨r, hrl, hnum⟩
            rcases mem_lockedRows.mp (hlocked ▸ hrl) with ⟨hr, hfid, hmem⟩
            refine ⟨stampRow now orderId userId r,
                    List.mem_map.mpr ⟨r, hr, if_pos (And.intro hfid hmem)⟩, rfl, hnum⟩
          · by_cases hcond : r.flightId = flightId ∧ r.seatNumber ∈ newSeats
            · exact ⟨stampRow now orderId userId r,
                     List.mem_map.mpr ⟨r, hr, if_pos hcond⟩, rfl, hnum⟩
            · exact ⟨r, List.mem_map.mpr ⟨r, hr, if_neg hcond⟩, hres, hnum⟩

theorem owned_updateSeatsTx_ok {now : Int} {orderId : String}
    {oldSeats newSeats : List String} {db : DBState} {t : List Seat} {s : String}
    (h : updateSeatsTx now orderId oldSeats newSeats db = .ok t) :
    s ∈ ownedSeats t orderId ↔
      s ∈ newSeats ∨ (s ∈ ownedSeats db.seats orderId ∧ s ∉ oldSeats) := by
  unfold updateSeatsTx at h
  cases hord : db.orders.find? (fun o => o.orderId = orderId) with
  | none => rw [hord] at h; exact absurd h (by simp)
  | some o =>
    rw [hord] at h
    rw [owned_acquireSeats_ok h, owned_releasedTable]

/-! ## C1 -/

/-- C1 counterexample.  The claim says a successful `updateSeats` leaves
the order owning exactly `newSeats`, because step 3 releases all rows the
order currently owns.  In the code the release `UPDATE` is restricted to
`seat_number IN (oldSeats)`: starting from `O1` owning `A1` and `A2`, the
call `UpdateSeats("O1", oldSeats=["A1"], newSeats=["B1"])` succeeds and
afterwards `O1` owns `A2` and `B1` — the stale `A2` survives and is not in
`newSeats`. -/
theorem c1_counterexample :
    ∃ t, updateSeatsTx 0 "O1" ["A1"] ["B1"] dbTwoHeld = .ok t ∧
      "A2" ∈ ownedSeats t "O1" ∧ "A2" ∉ (["B1"] : List String) := by
  exact ⟨_, rfl, by decide, by decide⟩

/-- C1 (amended): after a successful `updateSeats(orderId, oldSeats,
newSeats)` call, the set of seat rows whose `reservedBy` equals the
order's id is exactly `newSeats`, provided the caller's `oldSeats`
includes every seat the order currently owns (the release step only
releases owned rows listed in `oldSeats`). -/
theorem c1_ownership_conservation (now : Int) (orderId : String)
    (oldSeats newSeats : List String) (db : DBState) (t : List Seat)
    (h : updateSeatsTx now orderId oldSeats newSeats db = .ok t)
    (hcover : ∀ s ∈ ownedSeats db.seats orderId, s ∈ oldSeats) :
    ∀ s, s ∈ ownedSeats t orderId ↔ s ∈ newSeats := by
  intro s
  rw [owned_updateSeatsTx_ok h]
  constructor
  · rintro (h1 | ⟨h2, h3⟩)
    · exact h1
    · exact absurd (hcover s h2) h3
  · exact Or.inl

/-- C1 witness: `O1` owns exactly `A1`, swaps it for `B1`, and afterwards
owns exactly `B1`. -/
theorem c1_ownership_conservation_witness :
    ∃ t, updateSeatsTx 0 "O1" ["A1"] ["B1"] dbOneHeld = .ok t ∧
      ∀ s, s ∈ ownedSeats t "O1" ↔ s ∈ (["B1"] : List String) :=
  ⟨_, rfl, c1_ownership_conservation 0 "O1" ["A1"] ["B1"] dbOneHeld _ rfl (by decide)⟩

/-! ## C5 -/

/-- C5: a failed `updateSeats` transaction rolls back — the published seat
table is exactly the table before the call — and a successful one applies
the full swap: afterwards a seat is owned by the order iff it is in
`newSeats` or was owned before and not listed in `oldSeats` (nothing is
partially released or partially acquired). -/
theorem c5_update_atomicity (now : Int) (orderId : String)
    (oldSeats newSeats : List String) (db : DBState) :
    (∀ e, updateSeatsTx now orderId oldSeats newSeats db = .error e →
      commitOrRollback (updateSeatsTx now orderId oldSeats newSeats db) db.seats = db.seats) ∧
    (∀ t, updateSeatsTx now orderId oldSeats newSeats db = .ok t →
      ∀ s, s ∈ ownedSeats t orderId ↔
        s ∈ newSeats ∨ (s ∈ ownedSeats db.seats orderId ∧ s ∉ oldSeats)) := by
  constructor
  · intro e he
    rw [he]
    rfl
  · intro t ht s
    exact owned_updateSeatsTx_ok ht

/-- C5 witness: a failing swap to the nonexistent seat `B9` leaves the
table untouched, and the successful swap `A1 → B1` applies fully. -/
theorem c5_update_atomicity_witness :
    commitOrRollback (updateSeatsTx 0 "O1" ["A1"] ["B9"] dbTwoHeld) dbTwoHeld.seats
        = dbTwoHeld.seats ∧
    ∃ t, updateSeatsTx 0 "O1" ["A1"] ["B1"] dbTwoHeld = .ok t ∧
      ∀ s, s ∈ ownedSeats t "O1" ↔
        s ∈ (["B1"] : List String) ∨
          (s ∈ ownedSeats dbTwoHeld.seats "O1" ∧ s ∉ (["A1"] : List String)) :=
  ⟨(c5_update_atomicity 0 "O1" ["A1"] ["B9"] dbTwoHeld).1 _ rfl,
   _, rfl, fun s => (c5_update_atomicity 0 "O1" ["A1"] ["B1"] dbTwoHeld).2 _ rfl s⟩

/-! ## C3 -/

/-- C3: terminal states are absorbing.  If the event loop, started from a
non-terminal status, reaches a terminal status on some trace of serviced
events, then any further delivered events (`updateSeats`, `submitPayment`,
`cancelOrder` signals or timer firings) are never serviced and the final
state — in particular the status — is unchanged: the loop has already
exited. -/
theorem c3_terminal_absorption (s : LoopState) (es es' : List LoopEvent)
    (h0 : isTerminalStatus s.status = false)
    (h1 : isTerminalStatus (runLoop s es).status = true) :
    runLoop s (es ++ es') = runLoop s es := by
  induction es generalizing s with
  | nil =>
    rw [runLoop] at h1
    rw [h0] at h1
    cases h1
  | cons e es ih =>
    rw [List.cons_append, runLoop, runLoop]
    rw [runLoop] at h1
    cases hstop : isTerminalStatus (handleEvent s e).status
        || (handleEvent s e).workflowErr.isSome with
    | true =>
      rw [if_pos rfl, if_pos rfl]
    | false =>
      rw [hstop] at h1
      simp only [Bool.false_eq_true, if_false] at h1 ⊢
      exact ih _ (Bool.or_eq_false_iff.mp hstop).1 h1

/-- C3 witness: from `SEATS_RESERVED`, a serviced `cancelOrder` signal
makes the status `CANCELLED`; a `submitPayment` signal delivered
afterwards is never serviced and changes nothing. -/
theorem c3_terminal_absorption_witness :
    isTerminalStatus (LoopState.mk "O1" ["A1"] StatusSeatsReserved 0 none).status = false ∧
    isTerminalStatus (runLoop (LoopState.mk "O1" ["A1"] StatusSeatsReserved 0 none)
        [.cancelOrder none]).status = true ∧
    runLoop (LoopState.mk "O1" ["A1"] StatusSeatsReserved 0 none)
        ([.cancelOrder none] ++ [.submitPayment "12345" true none]) =
      runLoop (LoopState.mk "O1" ["A1"] StatusSeatsReserved 0 none) [.cancelOrder none] :=
  ⟨by decide, by decide,
   c3_terminal_absorption _ _ _ (by decide) (by decide)⟩

/-! ## C4 -/

/-- C4 counterexample.  The claim ties the hold window to the configured
`ReservationTimeout`: with `RESERVATION_TIMEOUT=30s` (the value the README
suggests for testing), a seat whose hold is 60 seconds old would be
reservable by a new order.  The store hard-codes `15*time.Minute` instead
of reading the configuration, so at 60 seconds the spec-side takeability
says takeable while `ReserveSeats` rejects with `SeatNotAvailable`. -/
theorem c4_counterexample :
    seatTakeableSpec 30000000000 60000000000 rowHeldAtZero = true ∧
    reserveSeatsTx 60000000000 "FL123" ["C5"] "O2" "bob" [rowHeldAtZero] =
      .error (.wrapf "seat C5" .seatNotAvailable) :=
  ⟨by decide, rfl⟩

/-- C4 (amended): the takeability cutoff the store applies is the
hard-coded 15 minutes of `queries.go` (equal to `ReservationTimeout`'s
default but not sourced from it): a locked seat is takeable iff its status
is `AVAILABLE`, or it is `RESERVED` with a non-NULL `reservedAt` more than
15 minutes old; the first non-takeable locked row makes `ReserveSeats`
fail with `SeatNotAvailable` naming that seat; and a seat whose hold is
more than 15 minutes old is reserved by a new order with no external
sweep. -/
theorem c4_hold_window (now : Int) :
    (∀ r : Seat, seatTakeable now r = true ↔
      (r.status = SeatAvailable ∨ (r.status = SeatReserved ∧
        ∃ t0, r.reservedAt = some t0 ∧ now - t0 > fifteenMinutes))) ∧
    (∀ (flightId : String) (seatNums : List String) (orderId userId : String)
        (table : List Seat) (r : Seat),
      (lockedRows flightId seatNums table).find? (fun r => ¬ seatTakeable now r) = some r →
      reserveSeatsTx now flightId seatNums orderId userId table =
        .error (.wrapf ("seat " ++ r.seatNumber) .seatNotAvailable)) ∧
    (∀ (flightId orderId userId : String) (table : List Seat) (r : Seat) (t0 : Int),
      lockedRows flightId [r.seatNumber] table = [r] →
      r.status = SeatReserved → r.reservedAt = some t0 → now - t0 > fifteenMinutes →
      ∃ t, reserveSeatsTx now flightId [r.seatNumber] orderId userId table = .ok t ∧
        r.seatNumber ∈ ownedSeats t orderId) := by
  refine ⟨?_, ?_, ?_⟩
  · rintro ⟨sid, fid, sn, st, rb, uid, rat⟩
    unfold seatTakeable
    by_cases h1 : st = SeatAvailable
    · simp [h1]
    · by_cases h2 : st = SeatReserved
      · cases rat with
        | none => simp [h1, h2]
        | some t0 => simp [h1, h2]
      · cases rat with
        | none => simp [h1, h2]
        | some t0 => simp [h1, h2]
  · intro flightId seatNums orderId userId table r hfind
    unfold reserveSeatsTx
    rw [hfind]
  · intro flightId orderId userId table r t0 hlock hst hat htime
    have htake : seatTakeable now r = true := by
      unfold seatTakeable
      rw [if_neg (by rw [hst]; decide), if_pos hst, hat]
      simpa using htime
    have hfind : (lockedRows flightId [r.seatNumber] table).find?
        (fun r => ¬ seatTakeable now r) = none := by
      rw [hlock]
      simp [List.find?, htake]
    have hmiss : ([r.seatNumber] : List String).find? (fun s =>
        s ∉ (lockedRows flightId [r.seatNumber] table).map (fun r => r.seatNumber)) = none := by
      rw [hlock]
      simp [List.find?]
    have hrmem : r ∈ lockedRows flightId [r.seatNumber] table := by
      rw [hlock]
      exact List.mem_singleton_self r
    rcases mem_lockedRows.mp hrmem with ⟨hr, hfid, hnum⟩
    refine ⟨stampReserved now flightId [r.seatNumber] orderId userId table, ?_, ?_⟩
    · unfold reserveSeatsTx
      rw [hfind, hmiss]
    · exact mem_ownedSeats.mpr ⟨stampRow now orderId userId r,
        List.mem_map.mpr ⟨r, hr, if_pos ⟨hfid, hnum⟩⟩, rfl, rfl⟩

/-- C4 witness: a hold from time 0 examined at one million seconds (far
past 15 minutes) is taken over by the new order `O2`. -/
theorem c4_hold_window_witness :
    ∃ t, reserveSeatsTx 1000000000000000 "FL123" ["C5"] "O2" "bob" [rowHeldAtZero] = .ok t ∧
      "C5" ∈ ownedSeats t "O2" :=
  (c4_hold_window 1000000000000000).2.2 "FL123" "O2" "bob" [rowHeldAtZero] rowHeldAtZero 0
    (by decide) (by decide) (by decide) (by decide)

/-! ## C7 -/

/-- C7 counterexample.  The claim says the existence check (step 3) runs
before the takeability check (step 4), so a request naming a missing seat
fails with `SeatNotExist` even when another requested seat is
non-takeable.  In the code the takeability scan runs first: requesting
`["A1","Z9"]` where `A1` is freshly held by another order and `Z9` does
not exist fails with `SeatNotAvailable` for `A1`, not `SeatNotExist` for
`Z9`. -/
theorem c7_counterexample :
    reserveSeatsTx 0 "FL123" ["A1", "Z9"] "O2" "bob" dbOneHeld.seats =
      .error (.wrapf "seat A1" .seatNotAvailable) ∧
    "Z9" ∉ dbOneHeld.seats.map (fun r => r.seatNumber) ∧
    errorsIs (.wrapf "seat A1" .seatNotAvailable) .seatNotExist = false :=
  ⟨rfl, by decide, by decide⟩

/-- C7 (amended): a requested seat number with no row among the locked set
makes `ReserveSeats` fail with `SeatNotExist` naming the first such seat,
but this existence check runs only after the takeability scan of the
locked rows: whenever some locked row is non-takeable the call fails with
`SeatNotAvailable` for that row instead, even if a requested seat is also
missing. -/
theorem c7_exist_check_after_scan (now : Int) (flightId : String)
    (seatNums : List String) (orderId userId : String) (table : List Seat) :
    ((lockedRows flightId seatNums table).find? (fun r => ¬ seatTakeable now r) = none →
      ∀ s, seatNums.find? (fun s =>
          s ∉ (lockedRows flightId seatNums table).map (fun r => r.seatNumber)) = some s →
      reserveSeatsTx now flightId seatNums orderId userId table =
        .error (.wrapf ("seat " ++ s) .seatNotExist)) ∧
    (∀ r, (lockedRows flightId seatNums table).find? (fun r => ¬ seatTakeable now r) = some r →
      reserveSeatsTx now flightId seatNums orderId userId table =
        .error (.wrapf ("seat " ++ r.seatNumber) .seatNotAvailable)) := by
  constructor
  · intro hnone s hmiss
    unfold reserveSeatsTx
    rw [hnone, hmiss]
  · intro r hfind
    unfold reserveSeatsTx
    rw [hfind]

/-- C7 witness: requesting the nonexistent seat `Z9` on a flight whose
locked set is empty fails with `SeatNotExist` naming `Z9`. -/
theorem c7_exist_check_witness :
    reserveSeatsTx 0 "FL123" ["Z9"] "O2" "bob" dbOneHeld.seats =
      .error (.wrapf "seat Z9" .seatNotExist) :=
  (c7_exist_check_after_scan 0 "FL123" ["Z9"] "O2" "bob" dbOneHeld.seats).1 rfl "Z9" rfl

/-! ## C10 -/

/-- C10: a seat row that is `RESERVED` with a NULL `reservedAt` is never
takeable, no matter how much time has passed: `ReserveSeats` by any order
fails with the `SeatNotAvailable` sentinel, and the acquire phase of
`UpdateSeats` by another order fails with its seat-not-available rejection
— the expiry-reclaim clause requires a non-NULL `reservedAt`, so such a
row can never be taken over. -/
theorem c10_null_reservedAt_unreclaimable (now : Int) :
    (∀ (flightId : String) (seatNums : List String) (orderId userId : String)
        (table : List Seat) (r : Seat),
      r ∈ table → r.flightId = flightId → r.seatNumber ∈ seatNums →
      r.status = SeatReserved → r.reservedAt = none →
      ∃ e, reserveSeatsTx now flightId seatNums orderId userId table = .error e ∧
        errorsIs e .seatNotAvailable = true) ∧
    (∀ (orderId : String) (oldSeats newSeats : List String) (db : DBState)
        (o : OrderRow) (r : Seat),
      db.orders.find? (fun o => o.orderId = orderId) = some o →
      r ∈ db.seats → r.flightId = o.flightId → r.seatNumber ∈ newSeats →
      r.reservedBy ≠ some orderId →
      r.status = SeatReserved → r.reservedAt = none →
      ∃ s, updateSeatsTx now orderId oldSeats newSeats db =
        .error (.errNew ("seat " ++ s ++ " is not available"))) := by
  constructor
  · intro flightId seatNums orderId userId table r hr hfid hmem hst hat
    have hnt : seatTakeable now r = false := by
      unfold seatTakeable
      rw [if_neg (by rw [hst]; decide), if_pos hst, hat]
    have hrin : r ∈ lockedRows flightId seatNums table := mem_lockedRows.mpr ⟨hr, hfid, hmem⟩
    have hsome : ((lockedRows flightId seatNums table).find?
        (fun r => ¬ seatTakeable now r)).isSome := by
      rw [List.find?_isSome]
      exact ⟨r, hrin, by simp [hnt]⟩
    cases hfind : (lockedRows flightId seatNums table).find? (fun r => ¬ seatTakeable now r) with
    | none => rw [hfind] at hsome; cases hsome
    | some r0 =>
      refine ⟨.wrapf ("seat " ++ r0.seatNumber) .seatNotAvailable, ?_, by simp [errorsIs]⟩
      unfold reserveSeatsTx
      rw [hfind]
  · intro orderId oldSeats newSeats db o r hord hr hfid hmem hnotmine hst hat
    have hrel : r ∈ releasedTable orderId oldSeats db.seats := by
      unfold releasedTable
      by_cases hemp : oldSeats.isEmpty
      · rw [if_pos hemp]
        exact hr
      · rw [if_neg hemp]
        have himg : releaseOldRow orderId oldSeats r = r := by
          unfold releaseOldRow
          rw [if_neg]
          rintro ⟨h1, -⟩
          exact hnotmine h1
        have hmm : releaseOldRow orderId oldSeats r ∈
            db.seats.map (releaseOldRow orderId oldSeats) :=
          List.mem_map.mpr ⟨r, hr, rfl⟩
        rwa [himg] at hmm
    have hnt : seatTakeable now r = false := by
      unfold seatTakeable
      rw [if_neg (by rw [hst]; decide), if_pos hst, hat]
    have hrin : r ∈ lockedRows o.flightId newSeats (releasedTable orderId oldSeats db.seats) :=
      mem_lockedRows.mpr ⟨hrel, hfid, hmem⟩
    have hsome : ((lockedRows o.flightId newSeats
        (releasedTable orderId oldSeats db.seats)).find?
        (fun r => ¬ seatTakeable now r)).isSome := by
      rw [List.find?_isSome]
      exact ⟨r, hrin, by simp [hnt]⟩
    have hne : ¬ newSeats.isEmpty = true := by
      cases newSeats with
      | nil => cases hmem
      | cons a l => simp
    cases hfind : (lockedRows o.flightId newSeats
        (releasedTable orderId oldSeats db.seats)).find? (fun r => ¬ seatTakeable now r) with
    | none => rw [hfind] at hsome; cases hsome
    | some r0 =>
      refine ⟨r0.seatNumber, ?_⟩
      rw [updateSeatsTx_eq_acquireSeats hord]
      unfold acquireSeats
      rw [if_neg hne, hfind]

/-- C10 witness: the row `D1`, `RESERVED` by `O1` with NULL `reservedAt`,
is still rejected a million seconds later, both for a fresh `ReserveSeats`
by `O2` and for the acquire phase of an `UpdateSeats` by `O2`. -/
theorem c10_null_reservedAt_witness :
    (∃ e, reserveSeatsTx 1000000000000000 "FL123" ["D1"] "O2" "bob"
        dbNullReservedAt.seats = .error e ∧ errorsIs e .seatNotAvailable = true) ∧
    (∃ s, updateSeatsTx 1000000000000000 "O2" [] ["D1"] dbNullReservedAt =
        .error (.errNew ("seat " ++ s ++ " is not available"))) :=
  ⟨(c10_null_reservedAt_unreclaimable 1000000000000000).1 "FL123" ["D1"] "O2" "bob"
      dbNullReservedAt.seats rowNullReservedAt (by decide) (by decide) (by decide)
      (by decide) (by decide),
   (c10_null_reservedAt_unreclaimable 1000000000000000).2 "O2" [] ["D1"] dbNullReservedAt
      ⟨"O2", "FL123", "bob", StatusCreated⟩ rowNullReservedAt (by decide) (by decide)
      (by decide) (by decide) (by decide) (by decide) (by decide)⟩

/-! ## C2 -/

/-- C2 counterexample.  The claim says the business rejections are
non-retryable and the activity layer does not retry them.
`SeatActivities.ReserveSeats` only wraps the store error with
`fmt.Errorf` — it never calls `temporal.NewNonRetryableApplicationError`,
and the booking workflow's retry policy names no non-retryable error
types — so a deterministic `SeatNotAvailable` rejection is retried up to
the policy's 5 attempts instead of stopping after 1. -/
theorem c2_counterexample :
    activityReserveSeats 0 "FL123" ["A1"] "O2" "bob" dbOneHeld.seats =
      .error (.wrapf "failed to reserve seats" (.wrapf "seat A1" .seatNotAvailable)) ∧
    errorsIs (.wrapf "failed to reserve seats" (.wrapf "seat A1" .seatNotAvailable))
      .seatNotAvailable = true ∧
    isNonRetryable (.wrapf "failed to reserve seats"
      (.wrapf "seat A1" .seatNotAvailable)) = false ∧
    attemptsForDeterministicFailure 5 (.wrapf "failed to reserve seats"
      (.wrapf "seat A1" .seatNotAvailable)) = 5 ∧
    attemptsForDeterministicFailure 5 (.wrapf "failed to reserve seats"
      (.wrapf "seat A1" .seatNotAvailable)) ≠ 1 :=
  ⟨rfl, by decide, rfl, rfl, by decide⟩

/-- C2 (amended): every error of the `reserveSeats` activity carries the
offending seat number inside a `SeatNotAvailable` or `SeatNotExist`
rejection and makes the initial-hold orchestration terminate in `FAILED`,
but the activity layer does not mark these rejections non-retryable: a
deterministic rejection consumes the full 5-attempt retry budget before
the workflow fails. -/
theorem c2_rejections_retryable (now : Int) (flightId : String) (seatNums : List String)
    (orderId userId : String) (table : List Seat) (e : GoErr)
    (h : activityReserveSeats now flightId seatNums orderId userId table = .error e) :
    isNonRetryable e = false ∧
    attemptsForDeterministicFailure 5 e = 5 ∧
    startupStatus (activityReserveSeats now flightId seatNums orderId userId table)
      = StatusFailed ∧
    ∃ s, e = .wrapf "failed to reserve seats" (.wrapf ("seat " ++ s) .seatNotAvailable) ∨
         e = .wrapf "failed to reserve seats" (.wrapf ("seat " ++ s) .seatNotExist) := by
  unfold activityReserveSeats at h
  cases hres : reserveSeatsTx now flightId seatNums orderId userId table with
  | ok t =>
    rw [hres] at h
    cases h
  | error e0 =>
    rw [hres] at h
    simp only [Except.error.injEq] at h
    subst h
    refine ⟨rfl, rfl, ?_, ?_⟩
    · unfold startupStatus activityReserveSeats
      rw [hres]
    · unfold reserveSeatsTx at hres
      cases hfind : (lockedRows flightId seatNums table).find?
          (fun r => ¬ seatTakeable now r) with
      | some r =>
        rw [hfind] at hres
        simp only [Except.error.injEq] at hres
        exact ⟨r.seatNumber, Or.inl (by rw [hres])⟩
      | none =>
        rw [hfind] at hres
        cases hmiss : seatNums.find? (fun s =>
            s ∉ (lockedRows flightId seatNums table).map (fun r => r.seatNumber)) with
        | some s =>
          rw [hmiss] at hres
          simp only [Except.error.injEq] at hres
          exact ⟨s, Or.inr (by rw [hres])⟩
        | none =>
          rw [hmiss] at hres
          cases hres

/-- C2 witness: the concrete `SeatNotAvailable` rejection for seat `A1`
is retryable, consumes 5 attempts, and fails the startup. -/
theorem c2_rejections_retryable_witness :
    isNonRetryable (.wrapf "failed to reserve seats"
      (.wrapf "seat A1" .seatNotAvailable)) = false ∧
    attemptsForDeterministicFailure 5 (.wrapf "failed to reserve seats"
      (.wrapf "seat A1" .seatNotAvailable)) = 5 ∧
    startupStatus (activityReserveSeats 0 "FL123" ["A1"] "O2" "bob" dbOneHeld.seats)
      = StatusFailed ∧
    ∃ s, GoErr.wrapf "failed to reserve seats" (.wrapf "seat A1" .seatNotAvailable) =
           .wrapf "failed to reserve seats" (.wrapf ("seat " ++ s) .seatNotAvailable) ∨
         GoErr.wrapf "failed to reserve seats" (.wrapf "seat A1" .seatNotAvailable) =
           .wrapf "failed to reserve seats" (.wrapf ("seat " ++ s) .seatNotExist) :=
  c2_rejections_retryable 0 "FL123" ["A1"] "O2" "bob" dbOneHeld.seats _ rfl

/-! ## C6 -/

/-- C6: `UpdateOrderStatus` on an absent order returns a fresh
`errors.New("order not found")` value, which is not the
`database.ErrOrderNotFound` sentinel, so the `errors.Is` check in
`OrderActivities.UpdateOrderStatus` fails and the error is wrapped as an
ordinary retryable error — the explicit non-retryable branch (and its
"permanent error - don't retry" comment) is dead code. -/
theorem c6_orderNotFound_is_retryable :
    dbUpdateOrderStatus "O1" "CONFIRMED" [] = .error (.errNew "order not found") ∧
    errorsIs (.errNew "order not found") .orderNotFound = false ∧
    activityUpdateOrderStatus "O1" "CONFIRMED" [] =
      .error (.wrapf "failed to update order status" (.errNew "order not found")) ∧
    isNonRetryable (.wrapf "failed to update order status"
      (.errNew "order not found")) = false :=
  ⟨rfl, by decide, rfl, rfl⟩

/-! ## C8 -/

/-- C8: while the orchestrator is running, the façade reports
`timeRemaining = max(0, ReservationTimeout − (wallClockNow −
reservationStartAt))` truncated to whole seconds, computed from the raw
`reservationStartAt` of the `getStatus` snapshot; when the orchestrator is
not running the fallback response reports 0, and when the hold has lapsed
(elapsed ≥ timeout) the running-case response reports 0. -/
theorem c8_time_remaining (cfg now : Int) (order : OrderRow) (st : BookingSnapshot) :
    getOrderStatusHandler cfg now (some order) (some st) =
      some { status := st.status,
             timeRemaining :=
               (max 0 (cfg - (now - st.reservationStartAt))).toNat / 1000000000 } ∧
    getOrderStatusHandler cfg now (some order) none =
      some { status := order.status, timeRemaining := 0 } ∧
    (now - st.reservationStartAt ≥ cfg →
      getOrderStatusHandler cfg now (some order) (some st) =
        some { status := st.status, timeRemaining := 0 }) := by
  have hmax : (if cfg - (now - st.reservationStartAt) < 0 then 0
      else cfg - (now - st.reservationStartAt)) = max 0 (cfg - (now - st.reservationStartAt)) := by
    rcases lt_or_le (cfg - (now - st.reservationStartAt)) 0 with h | h
    · rw [if_pos h, max_eq_left h.le]
    · rw [if_neg (not_lt.mpr h), max_eq_right h]
  have hred : getOrderStatusHandler cfg now (some order) (some st) =
      some { status := st.status,
             timeRemaining :=
               (if cfg - (now - st.reservationStartAt) < 0 then 0
                else cfg - (now - st.reservationStartAt)).toNat / 1000000000 } := rfl
  refine ⟨?_, rfl, ?_⟩
  · rw [hred, hmax]
  · intro hlapsed
    have h0 : (if cfg - (now - st.reservationStartAt) < 0 then 0
        else cfg - (now - st.reservationStartAt)) = 0 := by
      by_cases hlt : cfg - (now - st.reservationStartAt) < 0
      · rw [if_pos hlt]
      · rw [if_neg hlt]
        omega
    rw [hred, h0]
    rfl

/-- C8 witness: with a 900-second timeout, a hold started at time 0 and
queried at 100 seconds reports 800 seconds remaining, and queried at 1000
seconds (lapsed) reports 0. -/
theorem c8_time_remaining_witness :
    getOrderStatusHandler 900000000000 100000000000
        (some ⟨"O1", "FL123", "alice", StatusSeatsReserved⟩)
        (some ⟨"O1", "FL123", "alice", ["A1"], StatusSeatsReserved, 0⟩) =
      some { status := StatusSeatsReserved, timeRemaining := 800 } ∧
    getOrderStatusHandler 900000000000 1000000000000
        (some ⟨"O1", "FL123", "alice", StatusSeatsReserved⟩)
        (some ⟨"O1", "FL123", "alice", ["A1"], StatusSeatsReserved, 0⟩) =
      some { status := StatusSeatsReserved, timeRemaining := 0 } :=
  ⟨by
    have h := (c8_time_remaining 900000000000 100000000000
      ⟨"O1", "FL123", "alice", StatusSeatsReserved⟩
      ⟨"O1", "FL123", "alice", ["A1"], StatusSeatsReserved, 0⟩).1
    rw [h]
    rfl,
   (c8_time_remaining 900000000000 1000000000000
      ⟨"O1", "FL123", "alice", StatusSeatsReserved⟩
      ⟨"O1", "FL123", "alice", ["A1"], StatusSeatsReserved, 0⟩).2.2 (by decide)⟩

/-! ## C9 -/

/-- C9: for a payment submission whose body decodes, the façade responds
400 exactly when the byte length of the submitted `paymentCode` is not 5,
and such a request sends no signal to the orchestrator (the handler
returns before `SignalWorkflow`), so the order is not advanced. -/
theorem c9_payment_code_length (req : SubmitPaymentRequest) (order? : Option OrderRow)
    (signalOk : Bool) :
    ((submitPaymentHandler req order? signalOk).httpStatus = 400 ↔
      req.paymentCode.utf8ByteSize ≠ 5) ∧
    (req.paymentCode.utf8ByteSize ≠ 5 →
      (submitPaymentHandler req order? signalOk).signalSent = false) := by
  unfold submitPaymentHandler
  by_cases hlen : req.paymentCode.utf8ByteSize = 5
  · rw [if_neg (not_not_intro hlen)]
    cases order? with
    | none => exact ⟨by simp [hlen], fun hne => absurd hlen hne⟩
    | some o =>
      cases signalOk with
      | true => exact ⟨by simp [hlen], fun hne => absurd hlen hne⟩
      | false => exact ⟨by simp [hlen], fun hne => absurd hlen hne⟩
  · rw [if_pos hlen]
    exact ⟨by simp [hlen], fun _ => rfl⟩

/-- C9 witness: the four-character code `"1234"` gets a 400 response and
no signal is sent. -/
theorem c9_payment_code_length_witness :
    (submitPaymentHandler ⟨"1234"⟩
      (some ⟨"O1", "FL123", "alice", StatusSeatsReserved⟩) true).httpStatus = 400 ∧
    (submitPaymentHandler ⟨"1234"⟩
      (some ⟨"O1", "FL123", "alice", StatusSeatsReserved⟩) true).signalSent = false :=
  ⟨(c9_payment_code_length ⟨"1234"⟩
      (some ⟨"O1", "FL123", "alice", StatusSeatsReserved⟩) true).1.mpr (by decide),
   (c9_payment_code_length ⟨"1234"⟩
      (some ⟨"O1", "FL123", "alice", StatusSeatsReserved⟩) true).2 (by decide)⟩

end FlightEx
